import Mathlib

/- A shallow embedding of cozmo_fsm/worldmap.py: the world-map coordinate
   fusion and object-identity tracking engine of cozmo-tools.  Python floats
   are idealized as real numbers; Python exceptions are modelled with Except;
   the tracking dictionary is modelled as an insertion-ordered association
   list, which matches Python 3 dict semantics. -/

noncomputable section

namespace Cozmo

/-- Modelled from the spec: transform.wrap_angle (module cozmo_fsm.transform
is not included under src/).  The spec states that angles are wrapped to the
interval (-pi, pi]. -/
def wrap_angle (t : ℝ) : ℝ :=
  t - 2 * Real.pi * ⌈(t - Real.pi) / (2 * Real.pi)⌉

/-- Real atan2 as computed by math.atan2, realized as the complex argument of
x + y i (which lies in (-pi, pi], with atan2 0 0 = 0, as in C). -/
def atan2 (y x : ℝ) : ℝ := Complex.arg ⟨x, y⟩

/-- A planar robot pose (x, y, theta): both robot.pose (raw, odometry-linked)
and robot.world.particle_filter.pose (filtered) have this shape. -/
structure Pose2 where
  x : ℝ
  y : ℝ
  theta : ℝ

/-- An SDK object pose: position, yaw (rotation.angle_z.radians), and the
verdict of the externally supplied predicate pose.is_comparable(robot.pose),
which the spec treats as an opaque boolean. -/
structure Pose3 where
  x : ℝ
  y : ℝ
  z : ℝ
  theta : ℝ
  comparable : Bool

/-- The attributes of an SDK light-cube object read by update_cube.  A pose of
none models a Python pose of None. -/
structure CubeSdk where
  pose : Option Pose3
  is_visible : Bool

/-- The attributes of an SDK face object read by update_face and
lookup_face_obj. -/
structure FaceSdk where
  pose : Option Pose3
  is_visible : Bool
  name : String
  face_id : Nat
  expression : String

/-- The attributes of an SDK custom object read by update_custom_object. -/
structure CustomSdk where
  pose : Option Pose3
  is_visible : Bool
  object_type : Nat

/-- WallObj: a wall entity.  Fields id, x, y, z, obstacle, is_visible and
update_from_sdk come from the WorldObject base class. -/
structure WallObj where
  id : Nat
  x : ℝ
  y : ℝ
  z : ℝ
  theta : ℝ
  length : ℝ
  height : ℝ
  door_width : ℝ
  door_height : ℝ
  obstacle : Bool
  is_visible : Bool
  update_from_sdk : Bool

/-- WallObj.__init__: WorldObject defaults (obstacle true, not visible,
update_from_sdk false, z initially 0), then z is overwritten with height/2. -/
def WallObj.init (id : Nat) (x y theta length height door_width door_height : ℝ) :
    WallObj :=
  { id := id, x := x, y := y, z := height / 2, theta := theta, length := length,
    height := height, door_width := door_width, door_height := door_height,
    obstacle := true, is_visible := false, update_from_sdk := false }

/-- LightCubeObj: a light-cube entity.  The sdk_obj reference is not stored
here; the tracking map's key plays that role. -/
structure LightCubeObj where
  id : Nat
  x : ℝ
  y : ℝ
  z : ℝ
  theta : ℝ
  size : ℝ × ℝ × ℝ
  obstacle : Bool
  is_visible : Bool
  update_from_sdk : Bool

/-- LightCubeObj.__init__ called as LightCubeObj(cube, id): position and theta
default to 0, size is the fixed light_cube_size (44, 44, 44), update_from_sdk
is set true, and is_visible mirrors the SDK object's visibility. -/
def LightCubeObj.init (id : Nat) (sdkVisible : Bool) : LightCubeObj :=
  { id := id, x := 0, y := 0, z := 0, theta := 0, size := (44, 44, 44),
    obstacle := true, is_visible := sdkVisible, update_from_sdk := true }

/-- CustomCubeObj: a custom-fiducial-cube entity. -/
structure CustomCubeObj where
  id : Nat
  x : ℝ
  y : ℝ
  z : ℝ
  theta : ℝ
  size : ℝ × ℝ × ℝ
  obstacle : Bool
  is_visible : Bool
  update_from_sdk : Bool

/-- The size derivation of CustomCubeObj.__init__, read off the source:
if (size is None) and isinstance(id, CustomObject): use the id's declared
dimensions; elif size (a provided triple is always truthy): use the explicit
size; else: use the default (50, 50, 50).  idDims is some d exactly when the
id argument is a CustomObject instance with declared dimensions d. -/
def customCubeSize (idDims : Option (ℝ × ℝ × ℝ)) (size : Option (ℝ × ℝ × ℝ)) :
    ℝ × ℝ × ℝ :=
  match size, idDims with
  | none, some d => d
  | some s, _ => s
  | none, none => (50, 50, 50)

/-- CustomCubeObj.__init__: position and theta default to 0, size comes from
customCubeSize, update_from_sdk is set true, is_visible mirrors the SDK
object.  When called from update_custom_object the id is an object_type (not a
CustomObject instance), so idDims is none there. -/
def CustomCubeObj.init (id : Nat) (idDims : Option (ℝ × ℝ × ℝ))
    (size : Option (ℝ × ℝ × ℝ)) (sdkVisible : Bool) : CustomCubeObj :=
  { id := id, x := 0, y := 0, z := 0, theta := 0,
    size := customCubeSize idDims size,
    obstacle := true, is_visible := sdkVisible, update_from_sdk := true }

/-- FaceObj: a face entity.  expression is an attribute that Python only
creates on the first visible update, hence an Option; theta is an attribute
dynamically created by update_coords (initialized to 0 here, never read
before update_coords writes it). -/
structure FaceObj where
  id : Nat
  x : ℝ
  y : ℝ
  z : ℝ
  theta : ℝ
  name : String
  expression : Option String
  obstacle : Bool
  is_visible : Bool
  update_from_sdk : Bool

/-- FaceObj.__init__ called as FaceObj(face, face.face_id, x, y, z, name):
obstacle is set false, is_visible mirrors the SDK face. -/
def FaceObj.init (face_id : Nat) (x y z : ℝ) (name : String) (sdkVisible : Bool) :
    FaceObj :=
  { id := face_id, x := x, y := y, z := z, theta := 0, name := name,
    expression := none, obstacle := false, is_visible := sdkVisible,
    update_from_sdk := false }

/-- Keys of the tracking dictionary self.objects: cube/face/custom entries are
keyed by the sensor-native object handle, wall entries by the wall id. -/
inductive MapKey where
  | cube (h : Nat)
  | face (h : Nat)
  | custom (h : Nat)
  | wall (id : Nat)
  deriving DecidableEq

/-- Values of the tracking dictionary.  pyNone models a Python None stored as
a value (generate_walls_from_markers stores infer_wall's result unchecked). -/
inductive Entity where
  | wall (w : WallObj)
  | cube (c : LightCubeObj)
  | custom (c : CustomCubeObj)
  | face (f : FaceObj)
  | pyNone

/-- The WorldMap state: the tracking dictionary, as an insertion-ordered
association list. -/
structure WMState where
  objects : List (MapKey × Entity)

/-- Python exceptions that the embedded operations can raise. -/
inductive PyErr where
  | attributeError
  | indexError
  | keyError
  deriving DecidableEq

/-- Dictionary read: first entry with the given key (keys are unique in any
state built by the operations). -/
def dictGet : List (MapKey × Entity) → MapKey → Option Entity
  | [], _ => none
  | (k', v) :: rest, k => if k' = k then some v else dictGet rest k

/-- Dictionary write d[k] = v: replace in place if the key is present
(preserving its position, as Python dicts do), else append at the end. -/
def dictSet : List (MapKey × Entity) → MapKey → Entity → List (MapKey × Entity)
  | [], k, v => [(k, v)]
  | (k', v') :: rest, k, v =>
      if k' = k then (k, v) :: rest else (k', v') :: dictSet rest k v

/-- Dictionary d.pop(k): remove the entry with the given key. -/
def dictPop : List (MapKey × Entity) → MapKey → List (MapKey × Entity)
  | [], _ => []
  | (k', v') :: rest, k => if k' = k then rest else (k', v') :: dictPop rest k

/-- Result record of update_coords: the world-frame fields it writes into the
entity. -/
structure Coords where
  x : ℝ
  y : ℝ
  z : ℝ
  theta : ℝ
  is_visible : Bool

/-- Generic write of update_coords' result into an entity (Python writes the
attributes x, y, z, theta, is_visible of whatever WorldObject it is given;
the pyNone case is unreachable in well-formed states, where Python would have
raised before). -/
def Entity.applyCoords : Entity → Coords → Entity
  | .wall w, c => .wall { w with x := c.x, y := c.y, z := c.z, theta := c.theta,
                                 is_visible := c.is_visible }
  | .cube o, c => .cube { o with x := c.x, y := c.y, z := c.z, theta := c.theta,
                                 is_visible := c.is_visible }
  | .custom o, c => .custom { o with x := c.x, y := c.y, z := c.z, theta := c.theta,
                                     is_visible := c.is_visible }
  | .face f, c => .face { f with x := c.x, y := c.y, z := c.z, theta := c.theta,
                                 is_visible := c.is_visible }
  | .pyNone, _ => .pyNone

/-- Generic write world_obj.update_from_sdk = b. -/
def Entity.setUpdateFromSdk : Entity → Bool → Entity
  | .wall w, b => .wall { w with update_from_sdk := b }
  | .cube o, b => .cube { o with update_from_sdk := b }
  | .custom o, b => .custom { o with update_from_sdk := b }
  | .face f, b => .face { f with update_from_sdk := b }
  | .pyNone, _ => .pyNone

/-- Generic read of world_obj.update_from_sdk (false on pyNone, where Python
would have raised; unreachable in well-formed states). -/
def Entity.update_from_sdk : Entity → Bool
  | .wall w => w.update_from_sdk
  | .cube o => o.update_from_sdk
  | .custom o => o.update_from_sdk
  | .face f => f.update_from_sdk
  | .pyNone => false

/-- Generic write world_obj.is_visible = b. -/
def Entity.setIsVisible : Entity → Bool → Entity
  | .wall w, b => .wall { w with is_visible := b }
  | .cube o, b => .cube { o with is_visible := b }
  | .custom o, b => .custom { o with is_visible := b }
  | .face f, b => .face { f with is_visible := b }
  | .pyNone, _ => .pyNone

/-- Write of x, y and theta performed by update_carried_object. -/
def Entity.setXYTheta : Entity → ℝ → ℝ → ℝ → Entity
  | .wall w, x, y, t => .wall { w with x := x, y := y, theta := t }
  | .cube o, x, y, t => .cube { o with x := x, y := y, theta := t }
  | .custom o, x, y, t => .custom { o with x := x, y := y, theta := t }
  | .face f, x, y, t => .face { f with x := x, y := y, theta := t }
  | .pyNone, _, _, _ => .pyNone

/-- The face-field refresh of update_face when visible: x, y, z from the raw
sensor position and the current facial expression (only face entities carry
an expression; other kinds are unreachable here in well-formed states). -/
def Entity.setFaceFields : Entity → ℝ → ℝ → ℝ → String → Entity
  | .face f, x, y, z, e => .face { f with x := x, y := y, z := z,
                                          expression := some e }
  | e, _, _, _, _ => e

/-- A landmark entry of the particle filter's sensor model: the marker's mean
position (a column vector, modelled as a pair) and its observed orientation;
the covariance entry is never read by this module. -/
structure MarkerSpec where
  mu : ℝ × ℝ
  orient : ℝ

/-- A declared marker entry of a wall spec.  The source reads component
[1][0] of the stored tuple, the marker's declared offset from the wall
center; the remaining components are never read by this module. -/
structure MarkerDecl where
  offset : ℝ

/-- WallSpec: a registered wall template. -/
structure WallSpec where
  length : ℝ
  height : ℝ
  door_width : ℝ
  door_height : ℝ
  markers : List (Nat × MarkerDecl)
  id : Nat

/-- Python min over a list of ids (min of the empty list raises ValueError,
modelled as none). -/
def listMin : List Nat → Option Nat
  | [] => none
  | x :: xs => some (xs.foldl min x)

/-- WallSpec.__init__: stores the geometry, sets the spec id to the minimum
marker id, then registers every marker id in the global wall_marker_dict.
The registry is threaded explicitly; none models the ValueError that min([])
raises before any registration has happened, so the registry is untouched in
that case. -/
def WallSpec.init (length height door_width door_height : ℝ)
    (markers : List (Nat × MarkerDecl)) (dict : Nat → Option WallSpec) :
    Option (WallSpec × (Nat → Option WallSpec)) :=
  let ids := markers.map Prod.fst
  match listMin ids with
  | none => none
  | some m =>
      let ws : WallSpec := ⟨length, height, door_width, door_height, markers, m⟩
      some (ws, fun k => if k ∈ ids then some ws else dict k)

/-- The robot-side inputs read by the WorldMap operations during one call:
the raw pose, the particle-filter pose, the carried-object reference, the
kinematic transform, and the SDK collaborators.  rob.tmat is modelled from
the spec: robot.kine and the transform module are not included under src/;
tmat stands for base_to_link(world).dot(joint_to_base(lift_attach)) applied
to the homogeneous point transform.point(half_width, 0), projected to its x
and y rows.  carrying holds the tracking-map key of the entity the robot is
carrying (Python compares object identity with the stored entity; the map
holds exactly one entity per key). -/
structure RobotState where
  rawPose : Pose2
  pfPose : Pose2
  carrying : Option Nat
  tmat : ℝ × ℝ → ℝ × ℝ
  cubeSdk : Nat → CubeSdk
  faceSdk : Nat → FaceSdk
  customSdk : Nat → CustomSdk
  light_cubes : List (Nat × Nat)
  faces : List Nat
  landmarks : List (Nat × MarkerSpec)

/-- WorldMap.update_coords: the observation-to-world correction.  Computes
bearing and range of the sensed position relative to the robot's raw pose,
reprojects through the particle-filter pose, copies the sensor z, and wraps
the heading; the caller writes the result into the entity. -/
def update_coords (rob : RobotState) (p : Pose3) (sdkVisible : Bool) : Coords :=
  let dx := p.x - rob.rawPose.x
  let dy := p.y - rob.rawPose.y
  let alpha := atan2 dy dx - rob.rawPose.theta
  let r := Real.sqrt (dx * dx + dy * dy)
  { x := rob.pfPose.x + r * Real.cos (alpha + rob.pfPose.theta)
    y := rob.pfPose.y + r * Real.sin (alpha + rob.pfPose.theta)
    z := p.z
    theta := wrap_angle (p.theta + wrap_angle (rob.pfPose.theta - rob.rawPose.theta))
    is_visible := sdkVisible }

/-- WorldMap.update_carried_object: derive the entity's x and y purely
kinematically from the world-to-lift-attach transform applied to the point
(half_width, 0) with half_width hard-coded to 22 (a documented hack), and set
theta to the particle filter's current heading. -/
def update_carried_object (rob : RobotState) (world_obj : Entity) : Entity :=
  let new_pose := rob.tmat (22, 0)
  Entity.setXYTheta world_obj new_pose.1 new_pose.2 rob.pfPose.theta

/-- The id lookup in update_cube:
tuple(key for (key, value) in light_cubes.items() if value == cube)[0];
none models the IndexError raised when the tuple is empty. -/
def lookupCubeId : List (Nat × Nat) → Nat → Option Nat
  | [], _ => none
  | (k, v) :: rest, cube => if v = cube then some k else lookupCubeId rest cube

/-- The shared tail of update_cube: re-enable update_from_sdk when the cube is
visible, then apply the observation-to-world correction when update_from_sdk
holds (dereferencing the pose, which raises AttributeError when it is None). -/
def update_cube_rest (rob : RobotState) (cube : Nat) (world_obj : Entity)
    (s : WMState) : Except PyErr WMState :=
  let sdk := rob.cubeSdk cube
  let e1 := if sdk.is_visible then Entity.setUpdateFromSdk world_obj true else world_obj
  if Entity.update_from_sdk e1 then
    match sdk.pose with
    | none => Except.error PyErr.attributeError
    | some p =>
        Except.ok ⟨dictSet s.objects (MapKey.cube cube)
          (Entity.applyCoords e1 (update_coords rob p sdk.is_visible))⟩
  else
    Except.ok ⟨dictSet s.objects (MapKey.cube cube) e1⟩

/-- WorldMap.update_cube: carried-object projection when the tracked entity is
the carried one; drop untracked observations with a null or incomparable
pose; create a LightCubeObj on first comparable observation; then the shared
visibility / correction tail. -/
def update_cube (rob : RobotState) (cube : Nat) (s : WMState) : Except PyErr WMState :=
  match dictGet s.objects (MapKey.cube cube) with
  | some world_obj =>
      if rob.carrying = some cube then
        Except.ok ⟨dictSet s.objects (MapKey.cube cube)
          (update_carried_object rob world_obj)⟩
      else
        update_cube_rest rob cube world_obj s
  | none =>
      match (rob.cubeSdk cube).pose with
      | none => Except.ok s
      | some p =>
          if p.comparable = false then Except.ok s
          else
            match lookupCubeId rob.light_cubes cube with
            | none => Except.error PyErr.indexError
            | some id =>
                let world_obj := Entity.cube (LightCubeObj.init id (rob.cubeSdk cube).is_visible)
                update_cube_rest rob cube world_obj
                  ⟨dictSet s.objects (MapKey.cube cube) world_obj⟩

/-- The loop of lookup_face_obj: find the first dictionary entry whose key is
a Face whose current name equals the given name. -/
def findFaceKey (sdk : Nat → FaceSdk) (name : String) :
    List (MapKey × Entity) → Option (Nat × Entity)
  | [] => none
  | (MapKey.face k, v) :: rest =>
      if (sdk k).name = name then some (k, v) else findFaceKey sdk name rest
  | _ :: rest => findFaceKey sdk name rest

/-- WorldMap.lookup_face_obj: look a face up by name; when it is found under a
different (older) Face key and the observed face is visible, re-key the entry
to the new Face (pop the old key, insert the value under the new key).
Returns the found value together with the key it now lives under, and the
possibly re-keyed dictionary. -/
def lookup_face_obj (rob : RobotState) (face : Nat) (m : List (MapKey × Entity)) :
    Option (MapKey × Entity) × List (MapKey × Entity) :=
  match findFaceKey rob.faceSdk (rob.faceSdk face).name m with
  | none => (none, m)
  | some (k, v) =>
      if k ≠ face ∧ (rob.faceSdk face).is_visible = true then
        (some (MapKey.face face, v),
         dictSet (dictPop m (MapKey.face k)) (MapKey.face face) v)
      else
        (some (MapKey.face k, v), m)

/-- WorldMap.update_face: ignore a null pose entirely; resolve identity by
name, falling back to creating a new FaceObj keyed by the observed face;
always refresh is_visible; refresh position, expression and world coordinates
only when visible. -/
def update_face (rob : RobotState) (face : Nat) (s : WMState) : Except PyErr WMState :=
  let fs := rob.faceSdk face
  match fs.pose with
  | none => Except.ok s
  | some pos =>
      let r := lookup_face_obj rob face s.objects
      let kv :=
        match r.1 with
        | some (k, v) => (k, v, r.2)
        | none =>
            let v := Entity.face (FaceObj.init fs.face_id pos.x pos.y pos.z
              fs.name fs.is_visible)
            (MapKey.face face, v, dictSet r.2 (MapKey.face face) v)
      let v1 := Entity.setIsVisible kv.2.1 fs.is_visible
      if fs.is_visible then
        let v2 := Entity.setFaceFields v1 pos.x pos.y pos.z fs.expression
        let v3 := Entity.applyCoords v2 (update_coords rob pos fs.is_visible)
        Except.ok ⟨dictSet kv.2.2 kv.1 v3⟩
      else
        Except.ok ⟨dictSet kv.2.2 kv.1 v1⟩

/-- WorldMap.update_custom_object: the source dereferences
sdk_obj.pose.is_comparable without a null check, so a null pose raises
AttributeError; an incomparable pose is dropped; otherwise create on first
observation and always apply the correction. -/
def update_custom_object (rob : RobotState) (h : Nat) (s : WMState) :
    Except PyErr WMState :=
  let sdk := rob.customSdk h
  match sdk.pose with
  | none => Except.error PyErr.attributeError
  | some p =>
      if p.comparable = false then Except.ok s
      else
        let world_obj :=
          match dictGet s.objects (MapKey.custom h) with
          | some e => e
          | none => Entity.custom (CustomCubeObj.init sdk.object_type none none sdk.is_visible)
        Except.ok ⟨dictSet s.objects (MapKey.custom h)
          (Entity.applyCoords world_obj (update_coords rob p sdk.is_visible))⟩

/-- Lookup wall_spec.markers[m_id]; none models the KeyError on a missing
key. -/
def markerLookup : List (Nat × MarkerDecl) → Nat → Option MarkerDecl
  | [], _ => none
  | (k, d) :: rest, m => if k = m then some d else markerLookup rest m

/-- WorldMap.infer_wall: use the first listed marker that belongs to a known
wall; offset the marker's mean position by length/2 minus the marker's
declared offset, along the direction at the marker's orientation minus pi/2;
wall orientation is the marker's observed orientation.  The source omits the
door_width keyword at the WallObj construction site, so the WallObj default
75 applies there.  Falling off the list yields none (Python returns None). -/
def infer_wall (wdict : Nat → Option WallSpec) (id : Nat) :
    List (Nat × MarkerSpec) → Except PyErr (Option WallObj)
  | [] => Except.ok none
  | (m_id, m_spec) :: rest =>
      match wdict m_id with
      | none => infer_wall wdict id rest
      | some wall_spec =>
          match markerLookup wall_spec.markers m_id with
          | none => Except.error PyErr.keyError
          | some decl =>
              let dist := wall_spec.length / 2 - decl.offset
              let wall_orient := m_spec.orient
              let wall_x := m_spec.mu.1 + dist * Real.cos (wall_orient - Real.pi / 2)
              let wall_y := m_spec.mu.2 + dist * Real.sin (wall_orient - Real.pi / 2)
              Except.ok (some (WallObj.init wall_spec.id wall_x wall_y wall_orient
                wall_spec.length wall_spec.height 75 wall_spec.door_height))

/-- Append a marker observation to the list collected for a wall id,
preserving the Python dict-of-lists building order. -/
def addSeen (m : List (Nat × List (Nat × MarkerSpec))) (wid : Nat)
    (mk : Nat × MarkerSpec) : List (Nat × List (Nat × MarkerSpec)) :=
  match m with
  | [] => [(wid, [mk])]
  | (w, l) :: rest =>
      if w = wid then (w, l ++ [mk]) :: rest else (w, l) :: addSeen rest wid mk

/-- The marker-distribution loop of generate_walls_from_markers: walk the
landmark entries in order, skip markers that belong to no known wall, and
group the rest under their wall id. -/
def groupMarkersAux (wdict : Nat → Option WallSpec) :
    List (Nat × MarkerSpec) → List (Nat × List (Nat × MarkerSpec)) →
    List (Nat × List (Nat × MarkerSpec))
  | [], acc => acc
  | (id, spec) :: rest, acc =>
      match wdict id with
      | none => groupMarkersAux wdict rest acc
      | some ws => groupMarkersAux wdict rest (addSeen acc ws.id (id, spec))

/-- Markers of the current landmarks grouped by wall id. -/
def groupMarkers (wdict : Nat → Option WallSpec) (landmarks : List (Nat × MarkerSpec)) :
    List (Nat × List (Nat × MarkerSpec)) :=
  groupMarkersAux wdict landmarks []

/-- The value stored by generate_walls_from_markers: infer_wall's result, a
WallObj or Python None. -/
def wallEntity : Option WallObj → Entity
  | some w => Entity.wall w
  | none => Entity.pyNone

/-- The storing loop of generate_walls_from_markers: for each wall id with
collected markers, store the inferred wall under that id (an exception
aborts the loop and propagates, as in Python). -/
def storeWalls (wdict : Nat → Option WallSpec) :
    List (Nat × List (Nat × MarkerSpec)) → WMState → Except PyErr WMState
  | [], s => Except.ok s
  | (wid, ms) :: rest, s =>
      match infer_wall wdict wid ms with
      | Except.error e => Except.error e
      | Except.ok r => storeWalls wdict rest ⟨dictSet s.objects (MapKey.wall wid) (wallEntity r)⟩

/-- WorldMap.generate_walls_from_markers: distribute the current landmarks to
wall ids, then store the wall inferred for each id. -/
def generate_walls_from_markers (rob : RobotState) (wdict : Nat → Option WallSpec)
    (s : WMState) : Except PyErr WMState :=
  storeWalls wdict (groupMarkers wdict rob.landmarks) s

/-- The cube-refresh loop of update_map over robot.world.light_cubes.items(). -/
def cubeLoop (rob : RobotState) : List (Nat × Nat) → WMState → Except PyErr WMState
  | [], s => Except.ok s
  | (_, c) :: rest, s =>
      match update_cube rob c s with
      | Except.error e => Except.error e
      | Except.ok s1 => cubeLoop rob rest s1

/-- The face-refresh loop of update_map over robot.world._faces.values(). -/
def faceLoop (rob : RobotState) : List Nat → WMState → Except PyErr WMState
  | [], s => Except.ok s
  | f :: rest, s =>
      match update_face rob f s with
      | Except.error e => Except.error e
      | Except.ok s1 => faceLoop rob rest s1

/-- WorldMap.update_map: regenerate walls, then refresh every known light
cube, then every known face. -/
def update_map (rob : RobotState) (wdict : Nat → Option WallSpec) (s : WMState) :
    Except PyErr WMState :=
  match generate_walls_from_markers rob wdict s with
  | Except.error e => Except.error e
  | Except.ok s1 =>
      match cubeLoop rob rob.light_cubes s1 with
      | Except.error e => Except.error e
      | Except.ok s2 => faceLoop rob rob.faces s2

/-! Helper lemmas. -/

/-- wrap_angle lands in the spec's interval (-pi, pi]. -/
theorem wrap_angle_bounds (t : ℝ) : -Real.pi < wrap_angle t ∧ wrap_angle t ≤ Real.pi := by
  have hpi := Real.pi_pos
  have h2 : (0:ℝ) < 2 * Real.pi := by linarith
  unfold wrap_angle
  set a := (t - Real.pi) / (2 * Real.pi) with ha
  have h1 : a ≤ (⌈a⌉ : ℝ) := Int.le_ceil a
  have h3 : ((⌈a⌉ : ℝ)) < a + 1 := Int.ceil_lt_add_one a
  have hmul : 2 * Real.pi * a = t - Real.pi := by
    rw [ha, mul_comm]
    exact div_mul_cancel₀ _ (ne_of_gt h2)
  have hle : 2 * Real.pi * a ≤ 2 * Real.pi * (⌈a⌉ : ℝ) :=
    mul_le_mul_of_nonneg_left h1 (le_of_lt h2)
  have hlt : 2 * Real.pi * (⌈a⌉ : ℝ) < 2 * Real.pi * (a + 1) :=
    mul_lt_mul_of_pos_left h3 h2
  have hd : 2 * Real.pi * (a + 1) = (t - Real.pi) + 2 * Real.pi := by
    rw [mul_add, hmul]; ring
  exact ⟨by linarith, by linarith⟩

theorem foldl_min_le_self (xs : List Nat) (x : Nat) : xs.foldl min x ≤ x := by
  induction xs generalizing x with
  | nil => exact le_refl x
  | cons y ys ih => exact le_trans (ih (min x y)) (min_le_left x y)

theorem foldl_min_le (xs : List Nat) (x y : Nat) (h : y ∈ x :: xs) :
    xs.foldl min x ≤ y := by
  induction xs generalizing x with
  | nil =>
      rcases List.mem_singleton.mp h with rfl
      exact le_refl y
  | cons z zs ih =>
      simp only [List.foldl_cons]
      rcases List.mem_cons.mp h with rfl | h2
      · exact le_trans (foldl_min_le_self zs (min y z)) (min_le_left y z)
      · rcases List.mem_cons.mp h2 with rfl | h3
        · exact le_trans (foldl_min_le_self zs (min x y)) (min_le_right x y)
        · exact ih (min x z) (List.mem_cons_of_mem _ h3)

theorem foldl_min_mem (xs : List Nat) (x : Nat) : xs.foldl min x ∈ x :: xs := by
  induction xs generalizing x with
  | nil => exact List.mem_singleton.mpr rfl
  | cons z zs ih =>
      simp only [List.foldl_cons]
      rcases List.mem_cons.mp (ih (min x z)) with he | hm
      · rw [he]
        rcases min_choice x z with h1 | h1 <;> rw [h1]
        · exact List.mem_cons_self x _
        · exact List.mem_cons_of_mem x (List.mem_cons_self z _)
      · exact List.mem_cons_of_mem x (List.mem_cons_of_mem z hm)

/-! Claim C1. -/

/-- Modelled from the spec, for the refinement check of claim C1 only: the
observation-to-world correction exactly as the spec words it — bearing
alpha = atan2(dy, dx) - theta_r, range r = sqrt(dx^2 + dy^2) from the sensor
position minus the raw robot position, reprojection through the filtered
pose, uncorrected z, and world_theta = wrap(targetYaw + wrap(theta_f -
theta_r)). -/
def specWorldCorrection (raw filtered : Pose2) (p : Pose3) : ℝ × ℝ × ℝ × ℝ :=
  let dx := p.x - raw.x
  let dy := p.y - raw.y
  let alpha := atan2 dy dx - raw.theta
  let r := Real.sqrt (dx ^ 2 + dy ^ 2)
  (filtered.x + r * Real.cos (alpha + filtered.theta),
   filtered.y + r * Real.sin (alpha + filtered.theta),
   p.z,
   wrap_angle (p.theta + wrap_angle (filtered.theta - raw.theta)))

/-- Claim C1: for every observation with a sensor pose comparable to the
robot's raw pose, update_coords produces exactly the world pose the spec's
algorithm prescribes — alpha and r from the sensor position minus the raw
position, reprojection through the filtered pose, z taken from the sensor
with no correction, and world_theta = wrap(targetYaw + wrap(theta_f -
theta_r)), which lies in (-pi, pi]. -/
theorem c1_update_coords_follows_spec (rob : RobotState) (p : Pose3) (vis : Bool)
    (h : p.comparable = true) :
    ((update_coords rob p vis).x, (update_coords rob p vis).y,
     (update_coords rob p vis).z, (update_coords rob p vis).theta)
      = specWorldCorrection rob.rawPose rob.pfPose p ∧
    -Real.pi < (update_coords rob p vis).theta ∧
    (update_coords rob p vis).theta ≤ Real.pi := by
  have hsq : Real.sqrt ((p.x - rob.rawPose.x) * (p.x - rob.rawPose.x) +
      (p.y - rob.rawPose.y) * (p.y - rob.rawPose.y))
      = Real.sqrt ((p.x - rob.rawPose.x) ^ 2 + (p.y - rob.rawPose.y) ^ 2) := by
    congr 1
    ring
  refine ⟨?_, wrap_angle_bounds _⟩
  simp only [update_coords, specWorldCorrection, Prod.mk.injEq, hsq]

def c1rob : RobotState :=
  { rawPose := ⟨0, 0, 0⟩, pfPose := ⟨0, 0, 0⟩, carrying := none,
    tmat := fun q => q, cubeSdk := fun _ => ⟨none, false⟩,
    faceSdk := fun _ => ⟨none, false, "", 0, ""⟩,
    customSdk := fun _ => ⟨none, false, 0⟩,
    light_cubes := [], faces := [], landmarks := [] }

def c1pose : Pose3 := ⟨1, 0, 0, 0, true⟩

/-- Witness for claim C1 at a concrete comparable observation. -/
theorem c1_witness :
    c1pose.comparable = true ∧
    (((update_coords c1rob c1pose true).x, (update_coords c1rob c1pose true).y,
      (update_coords c1rob c1pose true).z, (update_coords c1rob c1pose true).theta)
        = specWorldCorrection c1rob.rawPose c1rob.pfPose c1pose ∧
     -Real.pi < (update_coords c1rob c1pose true).theta ∧
     (update_coords c1rob c1pose true).theta ≤ Real.pi) :=
  ⟨rfl, c1_update_coords_follows_spec c1rob c1pose true rfl⟩

/-! Claim C4. -/

/-- Claim C4 counterexample: when both the custom-object-type's declared
dimensions and an explicit size override are present, the constructor takes
the explicit override, not the declared dimensions, contradicting the claimed
priority order. -/
theorem c4_counterexample :
    (CustomCubeObj.init 0 (some (10, 20, 30)) (some (1, 2, 3)) true).size = (1, 2, 3) ∧
    ((1 : ℝ), (2 : ℝ), (3 : ℝ)) ≠ ((10 : ℝ), (20 : ℝ), (30 : ℝ)) := by
  refine ⟨rfl, fun h => ?_⟩
  have h1 := congrArg Prod.fst h
  norm_num at h1

/-- Claim C4 (amended): the size is derived with the priority — explicit
size override first, else the custom-object-type's declared dimensions when
the id is a CustomObject instance, else the default (50, 50, 50) mm; the
explicit override takes precedence over declared dimensions when both are
present. -/
theorem c4_size_priority :
    (∀ (id : Nat) (d s : ℝ × ℝ × ℝ) (b : Bool),
        (CustomCubeObj.init id (some d) (some s) b).size = s) ∧
    (∀ (id : Nat) (d : ℝ × ℝ × ℝ) (b : Bool),
        (CustomCubeObj.init id (some d) none b).size = d) ∧
    (∀ (id : Nat) (s : ℝ × ℝ × ℝ) (b : Bool),
        (CustomCubeObj.init id none (some s) b).size = s) ∧
    (∀ (id : Nat) (b : Bool),
        (CustomCubeObj.init id none none b).size = (50, 50, 50)) :=
  ⟨fun _ _ _ _ => rfl, fun _ _ _ => rfl, fun _ _ _ => rfl, fun _ _ => rfl⟩

/-! Claim C6. -/

/-- Claim C6: when the raw pose and the filtered pose agree exactly, the
observation-to-world correction reduces to the naive reprojection from the
raw pose — the filter correction is an identity. -/
theorem c6_identity_reprojection (rob : RobotState) (p : Pose3) (vis : Bool)
    (h : rob.rawPose = rob.pfPose) :
    (update_coords rob p vis).x
      = rob.rawPose.x +
        Real.sqrt ((p.x - rob.rawPose.x) ^ 2 + (p.y - rob.rawPose.y) ^ 2) *
          Real.cos ((atan2 (p.y - rob.rawPose.y) (p.x - rob.rawPose.x)
            - rob.rawPose.theta) + rob.rawPose.theta) ∧
    (update_coords rob p vis).y
      = rob.rawPose.y +
        Real.sqrt ((p.x - rob.rawPose.x) ^ 2 + (p.y - rob.rawPose.y) ^ 2) *
          Real.sin ((atan2 (p.y - rob.rawPose.y) (p.x - rob.rawPose.x)
            - rob.rawPose.theta) + rob.rawPose.theta) := by
  have hsq : Real.sqrt ((p.x - rob.rawPose.x) * (p.x - rob.rawPose.x) +
      (p.y - rob.rawPose.y) * (p.y - rob.rawPose.y))
      = Real.sqrt ((p.x - rob.rawPose.x) ^ 2 + (p.y - rob.rawPose.y) ^ 2) := by
    congr 1
    ring
  simp only [update_coords, ← h]
  exact ⟨by rw [hsq], by rw [hsq]⟩

/-- Witness for claim C6 at a concrete state with agreeing pose estimates. -/
theorem c6_witness :
    c1rob.rawPose = c1rob.pfPose ∧
    ((update_coords c1rob ⟨1, 0, 0, 0, true⟩ true).x
      = c1rob.rawPose.x +
        Real.sqrt ((1 - c1rob.rawPose.x) ^ 2 + (0 - c1rob.rawPose.y) ^ 2) *
          Real.cos ((atan2 (0 - c1rob.rawPose.y) (1 - c1rob.rawPose.x)
            - c1rob.rawPose.theta) + c1rob.rawPose.theta) ∧
     (update_coords c1rob ⟨1, 0, 0, 0, true⟩ true).y
      = c1rob.rawPose.y +
        Real.sqrt ((1 - c1rob.rawPose.x) ^ 2 + (0 - c1rob.rawPose.y) ^ 2) *
          Real.sin ((atan2 (0 - c1rob.rawPose.y) (1 - c1rob.rawPose.x)
            - c1rob.rawPose.theta) + c1rob.rawPose.theta)) :=
  ⟨rfl, c6_identity_reprojection c1rob ⟨1, 0, 0, 0, true⟩ true rfl⟩

/-! Claim C7. -/

/-- Claim C7: constructing a WallSpec with at least one marker assigns it an
id equal to the minimum marker id and registers marker_id to spec for every
marker id, leaving other registry entries alone; constructing a WallSpec with
zero markers fails (min of an empty list) before registering anything. -/
theorem c7_wallspec_registration (L H DW DH : ℝ) (markers : List (Nat × MarkerDecl))
    (dict : Nat → Option WallSpec) :
    (markers = [] → WallSpec.init L H DW DH markers dict = none) ∧
    (markers ≠ [] → ∃ ws dict',
      WallSpec.init L H DW DH markers dict = some (ws, dict') ∧
      ws.id ∈ markers.map Prod.fst ∧
      (∀ i ∈ markers.map Prod.fst, ws.id ≤ i) ∧
      (∀ i ∈ markers.map Prod.fst, dict' i = some ws) ∧
      (∀ i, i ∉ markers.map Prod.fst → dict' i = dict i)) := by
  constructor
  · rintro rfl
    rfl
  · intro hne
    cases markers with
    | nil => exact absurd rfl hne
    | cons hd tl =>
        refine ⟨_, _, rfl, ?_, ?_, ?_, ?_⟩
        · show (tl.map Prod.fst).foldl min hd.1 ∈ (hd :: tl).map Prod.fst
          simp only [List.map_cons]
          exact foldl_min_mem _ _
        · intro i hi
          rw [List.map_cons] at hi
          exact foldl_min_le _ _ _ hi
        · intro i hi
          exact if_pos hi
        · intro i hi
          exact if_neg hi

/-- Witness for claim C7 at a concrete two-marker spec. -/
theorem c7_witness :
    ∃ ws dict',
      WallSpec.init 100 210 75 105 [(5, ⟨0⟩), (3, ⟨1⟩)] (fun _ => none)
        = some (ws, dict') ∧
      ws.id ∈ ([(5, (⟨0⟩ : MarkerDecl)), (3, ⟨1⟩)]).map Prod.fst ∧
      (∀ i ∈ ([(5, (⟨0⟩ : MarkerDecl)), (3, ⟨1⟩)]).map Prod.fst, ws.id ≤ i) ∧
      (∀ i ∈ ([(5, (⟨0⟩ : MarkerDecl)), (3, ⟨1⟩)]).map Prod.fst, dict' i = some ws) ∧
      (∀ i, i ∉ ([(5, (⟨0⟩ : MarkerDecl)), (3, ⟨1⟩)]).map Prod.fst →
        dict' i = (fun _ => (none : Option WallSpec)) i) :=
  (c7_wallspec_registration 100 210 75 105 [(5, ⟨0⟩), (3, ⟨1⟩)] (fun _ => none)).2
    (by simp)

/-! Claim C2. -/

/-- Claim C2: while a tracked cube entity is the carried object, every
update_cube call applies only the carried-object projection — x and y come
from the kinematic world-to-lift-attach transform applied to the fixed
half-width point (22, 0), theta is set to the particle filter's current
heading, every other field of the entity is untouched, no observation-based
correction is applied, and no other map entry changes.  Because the state is
universally quantified, this holds on every successive call while the entity
remains the carried object. -/
theorem c2_carried_cube_projection (rob : RobotState) (c : Nat) (s : WMState)
    (o : LightCubeObj)
    (he : dictGet s.objects (MapKey.cube c) = some (Entity.cube o))
    (hc : rob.carrying = some c) :
    update_cube rob c s = Except.ok
      ⟨dictSet s.objects (MapKey.cube c)
        (Entity.cube { o with x := (rob.tmat (22, 0)).1, y := (rob.tmat (22, 0)).2,
                              theta := rob.pfPose.theta })⟩ := by
  simp [update_cube, he, hc, update_carried_object, Entity.setXYTheta]

def c2cube : LightCubeObj := LightCubeObj.init 1 false

def c2rob : RobotState :=
  { rawPose := ⟨0, 0, 0⟩, pfPose := ⟨0, 0, 0⟩, carrying := some 1,
    tmat := fun q => q, cubeSdk := fun _ => ⟨none, false⟩,
    faceSdk := fun _ => ⟨none, false, "", 0, ""⟩,
    customSdk := fun _ => ⟨none, false, 0⟩,
    light_cubes := [], faces := [], landmarks := [] }

def c2state : WMState := ⟨[(MapKey.cube 1, Entity.cube c2cube)]⟩

/-- Witness for claim C2 at a concrete carried cube. -/
theorem c2_witness :
    dictGet c2state.objects (MapKey.cube 1) = some (Entity.cube c2cube) ∧
    c2rob.carrying = some 1 ∧
    update_cube c2rob 1 c2state = Except.ok
      ⟨dictSet c2state.objects (MapKey.cube 1)
        (Entity.cube { c2cube with x := (c2rob.tmat (22, 0)).1,
                                   y := (c2rob.tmat (22, 0)).2,
                                   theta := c2rob.pfPose.theta })⟩ :=
  ⟨rfl, rfl, c2_carried_cube_projection c2rob 1 c2state c2cube rfl rfl⟩

/-! Claim C8. -/

/-- Claim C8: invalid observations are atomically dropped — an untracked cube
whose sensor pose is null or not comparable leaves the state exactly
unchanged with no entity created, and a face observation with a null pose
leaves the state exactly unchanged. -/
theorem c8_invalid_observations_dropped :
    (∀ (rob : RobotState) (c : Nat) (s : WMState),
      dictGet s.objects (MapKey.cube c) = none →
      ((rob.cubeSdk c).pose = none ∨
        ∃ p, (rob.cubeSdk c).pose = some p ∧ p.comparable = false) →
      update_cube rob c s = Except.ok s) ∧
    (∀ (rob : RobotState) (f : Nat) (s : WMState),
      (rob.faceSdk f).pose = none →
      update_face rob f s = Except.ok s) := by
  constructor
  · intro rob c s hg hbad
    rcases hbad with hp | ⟨p, hp, hcomp⟩
    · simp [update_cube, hg, hp]
    · simp [update_cube, hg, hp, hcomp]
  · intro rob f s hp
    simp [update_face, hp]

def c8rob : RobotState :=
  { rawPose := ⟨0, 0, 0⟩, pfPose := ⟨0, 0, 0⟩, carrying := none,
    tmat := fun q => q, cubeSdk := fun _ => ⟨none, false⟩,
    faceSdk := fun _ => ⟨none, false, "", 0, ""⟩,
    customSdk := fun _ => ⟨none, false, 0⟩,
    light_cubes := [], faces := [], landmarks := [] }

/-- Witness for claim C8 at concrete null-pose observations. -/
theorem c8_witness :
    dictGet (⟨[]⟩ : WMState).objects (MapKey.cube 0) = none ∧
    (c8rob.cubeSdk 0).pose = none ∧
    update_cube c8rob 0 ⟨[]⟩ = Except.ok ⟨[]⟩ ∧
    (c8rob.faceSdk 0).pose = none ∧
    update_face c8rob 0 ⟨[]⟩ = Except.ok ⟨[]⟩ :=
  ⟨rfl, rfl,
   c8_invalid_observations_dropped.1 c8rob 0 ⟨[]⟩ rfl (Or.inl rfl),
   rfl,
   c8_invalid_observations_dropped.2 c8rob 0 ⟨[]⟩ rfl⟩

/-! Claim C9. -/

theorem update_cube_rest_ok (rob : RobotState) (cube : Nat) (e : Entity)
    (s : WMState) (p : Pose3) (hp : (rob.cubeSdk cube).pose = some p) :
    ∃ s', update_cube_rest rob cube e s = Except.ok s' := by
  unfold update_cube_rest
  dsimp only
  rw [hp]
  split
  · split
    · exact ⟨_, rfl⟩
    · exact ⟨_, rfl⟩
  · split
    · exact ⟨_, rfl⟩
    · exact ⟨_, rfl⟩

def c9rob : RobotState :=
  { rawPose := ⟨0, 0, 0⟩, pfPose := ⟨0, 0, 0⟩, carrying := none,
    tmat := fun q => q, cubeSdk := fun _ => ⟨none, false⟩,
    faceSdk := fun _ => ⟨none, false, "", 0, ""⟩,
    customSdk := fun _ => ⟨none, false, 0⟩,
    light_cubes := [], faces := [], landmarks := [] }

/-- Claim C9 counterexample: update_custom_object dereferences the sensor
pose before any null check, so an observation with a null sensor pose raises
AttributeError instead of returning normally — refuting the claim that every
update operation returns normally on every observation including a null
pose. -/
theorem c9_counterexample :
    (c9rob.customSdk 0).pose = none ∧
    update_custom_object c9rob 0 ⟨[]⟩ = Except.error PyErr.attributeError :=
  ⟨rfl, rfl⟩

/-- Claim C9 (amended): update_face returns normally on every observation
including a null pose; update_custom_object returns normally exactly when the
sensor pose is non-null, and raises AttributeError on a null pose;
update_cube returns normally whenever the sensor pose is non-null and the
cube is registered in the robot's light_cubes table. -/
theorem c9_no_exceptions_amended :
    (∀ (rob : RobotState) (f : Nat) (s : WMState),
      ∃ s', update_face rob f s = Except.ok s') ∧
    (∀ (rob : RobotState) (h : Nat) (s : WMState) (p : Pose3),
      (rob.customSdk h).pose = some p →
      ∃ s', update_custom_object rob h s = Except.ok s') ∧
    (∀ (rob : RobotState) (h : Nat) (s : WMState),
      (rob.customSdk h).pose = none →
      update_custom_object rob h s = Except.error PyErr.attributeError) ∧
    (∀ (rob : RobotState) (c : Nat) (s : WMState) (p : Pose3) (i : Nat),
      (rob.cubeSdk c).pose = some p →
      lookupCubeId rob.light_cubes c = some i →
      ∃ s', update_cube rob c s = Except.ok s') := by
  refine ⟨?_, ?_, ?_, ?_⟩
  · intro rob f s
    unfold update_face
    dsimp only
    cases hp : (rob.faceSdk f).pose with
    | none => exact ⟨s, rfl⟩
    | some pos =>
        dsimp only
        split
        · exact ⟨_, rfl⟩
        · exact ⟨_, rfl⟩
  · intro rob h s p hp
    unfold update_custom_object
    dsimp only
    rw [hp]
    dsimp only
    split
    · exact ⟨s, rfl⟩
    · exact ⟨_, rfl⟩
  · intro rob h s hp
    simp [update_custom_object, hp]
  · intro rob c s p i hp hi
    unfold update_cube
    cases hg : dictGet s.objects (MapKey.cube c) with
    | some world_obj =>
        dsimp only
        split
        · exact ⟨_, rfl⟩
        · exact update_cube_rest_ok rob c world_obj s p hp
    | none =>
        dsimp only
        rw [hp]
        dsimp only
        split
        · exact ⟨s, rfl⟩
        · rw [hi]
          exact update_cube_rest_ok rob c _ _ p hp

def c9rob2 : RobotState :=
  { rawPose := ⟨0, 0, 0⟩, pfPose := ⟨0, 0, 0⟩, carrying := none,
    tmat := fun q => q, cubeSdk := fun _ => ⟨some ⟨0, 0, 0, 0, true⟩, false⟩,
    faceSdk := fun _ => ⟨none, false, "", 0, ""⟩,
    customSdk := fun _ => ⟨some ⟨0, 0, 0, 0, true⟩, false, 0⟩,
    light_cubes := [(1, 0)], faces := [], landmarks := [] }

/-- Witness for the amended claim C9 at concrete observations. -/
theorem c9_witness :
    (∃ s', update_face c9rob2 0 ⟨[]⟩ = Except.ok s') ∧
    ((c9rob2.customSdk 0).pose = some ⟨0, 0, 0, 0, true⟩ ∧
      ∃ s', update_custom_object c9rob2 0 ⟨[]⟩ = Except.ok s') ∧
    ((c9rob2.cubeSdk 0).pose = some ⟨0, 0, 0, 0, true⟩ ∧
      lookupCubeId c9rob2.light_cubes 0 = some 1 ∧
      ∃ s', update_cube c9rob2 0 ⟨[]⟩ = Except.ok s') :=
  ⟨c9_no_exceptions_amended.1 c9rob2 0 ⟨[]⟩,
   ⟨rfl, c9_no_exceptions_amended.2.1 c9rob2 0 ⟨[]⟩ _ rfl⟩,
   ⟨rfl, rfl, c9_no_exceptions_amended.2.2.2 c9rob2 0 ⟨[]⟩ _ 1 rfl rfl⟩⟩

/-! Dictionary lemmas shared by the remaining claims. -/

theorem dictSet_dictSet (m : List (MapKey × Entity)) (k : MapKey) (v v' : Entity) :
    dictSet (dictSet m k v) k v' = dictSet m k v' := by
  induction m with
  | nil => simp [dictSet]
  | cons hd tl ih =>
      obtain ⟨k0, v0⟩ := hd
      by_cases hk : k0 = k
      · subst hk
        simp [dictSet]
      · simp [dictSet, hk, ih]

theorem dictSet_absent (m : List (MapKey × Entity)) (k : MapKey) (v : Entity)
    (h : ∀ kv ∈ m, kv.1 ≠ k) : dictSet m k v = m ++ [(k, v)] := by
  induction m with
  | nil => rfl
  | cons hd tl ih =>
      have hne := h hd (List.mem_cons_self hd tl)
      obtain ⟨k0, v0⟩ := hd
      simp only [dictSet, List.cons_append]
      rw [if_neg hne, ih (fun kv hkv => h kv (List.mem_cons_of_mem _ hkv))]

theorem dictPop_append_left (pre rest : List (MapKey × Entity)) (k : MapKey)
    (h : ∀ kv ∈ pre, kv.1 ≠ k) :
    dictPop (pre ++ rest) k = pre ++ dictPop rest k := by
  induction pre with
  | nil => rfl
  | cons hd tl ih =>
      have hne := h hd (List.mem_cons_self hd tl)
      obtain ⟨k0, v0⟩ := hd
      simp only [List.cons_append, dictPop]
      rw [if_neg hne]
      exact congrArg (fun l => (k0, v0) :: l)
        (ih (fun kv hkv => h kv (List.mem_cons_of_mem _ hkv)))

theorem dictGet_append_left (pre rest : List (MapKey × Entity)) (k : MapKey)
    (h : ∀ kv ∈ pre, kv.1 ≠ k) :
    dictGet (pre ++ rest) k = dictGet rest k := by
  induction pre with
  | nil => rfl
  | cons hd tl ih =>
      have hne := h hd (List.mem_cons_self hd tl)
      obtain ⟨k0, v0⟩ := hd
      simp only [List.cons_append, dictGet]
      rw [if_neg hne]
      exact ih (fun kv hkv => h kv (List.mem_cons_of_mem _ hkv))

/-! Claim C5. -/

/-- Entries of the tracking dictionary whose value is a face entity. -/
def isFaceKV (kv : MapKey × Entity) : Bool :=
  match kv.2 with
  | Entity.face _ => true
  | _ => false

/-- A dictionary with no face-keyed entry and no face-valued entry. -/
def NoFaces (m : List (MapKey × Entity)) : Prop :=
  ∀ kv ∈ m, (∀ j : Nat, kv.1 ≠ MapKey.face j) ∧ (∀ f : FaceObj, kv.2 ≠ Entity.face f)

theorem findFaceKey_none (sdk : Nat → FaceSdk) (nm : String)
    (m : List (MapKey × Entity))
    (h : ∀ kv ∈ m, ∀ j : Nat, kv.1 ≠ MapKey.face j) :
    findFaceKey sdk nm m = none := by
  induction m with
  | nil => rfl
  | cons hd tl ih =>
      obtain ⟨k0, v0⟩ := hd
      cases k0 with
      | face j => exact absurd rfl (h (MapKey.face j, v0) (List.mem_cons_self _ _) j)
      | cube j =>
          simp only [findFaceKey]
          exact ih (fun kv hkv j => h kv (List.mem_cons_of_mem _ hkv) j)
      | custom j =>
          simp only [findFaceKey]
          exact ih (fun kv hkv j => h kv (List.mem_cons_of_mem _ hkv) j)
      | wall j =>
          simp only [findFaceKey]
          exact ih (fun kv hkv j => h kv (List.mem_cons_of_mem _ hkv) j)

theorem findFaceKey_append_left (sdk : Nat → FaceSdk) (nm : String)
    (pre rest : List (MapKey × Entity))
    (h : ∀ kv ∈ pre, ∀ j : Nat, kv.1 ≠ MapKey.face j) :
    findFaceKey sdk nm (pre ++ rest) = findFaceKey sdk nm rest := by
  induction pre with
  | nil => rfl
  | cons hd tl ih =>
      obtain ⟨k0, v0⟩ := hd
      cases k0 with
      | face j => exact absurd rfl (h (MapKey.face j, v0) (List.mem_cons_self _ _) j)
      | cube j =>
          simp only [List.cons_append, findFaceKey]
          exact ih (fun kv hkv j => h kv (List.mem_cons_of_mem _ hkv) j)
      | custom j =>
          simp only [List.cons_append, findFaceKey]
          exact ih (fun kv hkv j => h kv (List.mem_cons_of_mem _ hkv) j)
      | wall j =>
          simp only [List.cons_append, findFaceKey]
          exact ih (fun kv hkv j => h kv (List.mem_cons_of_mem _ hkv) j)

theorem filter_isFace_nil (pre : List (MapKey × Entity))
    (h : ∀ kv ∈ pre, ∀ f : FaceObj, kv.2 ≠ Entity.face f) :
    pre.filter isFaceKV = [] := by
  induction pre with
  | nil => rfl
  | cons hd tl ih =>
      have hfalse : isFaceKV hd = false := by
        obtain ⟨k0, v0⟩ := hd
        cases v0 with
        | face f => exact absurd rfl (h _ (List.mem_cons_self _ _) f)
        | wall w => rfl
        | cube c => rfl
        | custom c => rfl
        | pyNone => rfl
      rw [List.filter_cons, hfalse, if_neg Bool.false_ne_true]
      exact ih (fun kv hkv f => h kv (List.mem_cons_of_mem _ hkv) f)

/-- The face entity produced by a first visible observation with sensor pose
p: FaceObj.init followed by the visible-branch refresh and the coordinate
correction (a proof-layer abbreviation for the record that update_face
builds). -/
def createdFace (rob : RobotState) (h : Nat) (p : Pose3) : FaceObj :=
  { id := (rob.faceSdk h).face_id
    x := (update_coords rob p true).x
    y := (update_coords rob p true).y
    z := (update_coords rob p true).z
    theta := (update_coords rob p true).theta
    name := (rob.faceSdk h).name
    expression := some (rob.faceSdk h).expression
    obstacle := false
    is_visible := (update_coords rob p true).is_visible
    update_from_sdk := false }

theorem update_face_create_vis (rob : RobotState) (h : Nat)
    (m : List (MapKey × Entity)) (p : Pose3)
    (hp : (rob.faceSdk h).pose = some p)
    (hfind : findFaceKey rob.faceSdk (rob.faceSdk h).name m = none)
    (hvis : (rob.faceSdk h).is_visible = true) :
    update_face rob h ⟨m⟩ = Except.ok
      ⟨dictSet m (MapKey.face h) (Entity.face (createdFace rob h p))⟩ := by
  unfold update_face lookup_face_obj
  dsimp only
  rw [hp, hfind]
  simp only [hvis, if_true]
  simp only [FaceObj.init, Entity.setIsVisible, Entity.setFaceFields,
    Entity.applyCoords, dictSet_dictSet, createdFace]

theorem update_face_rekey_vis (rob : RobotState) (h : Nat)
    (m : List (MapKey × Entity)) (p : Pose3) (k : Nat) (v : Entity)
    (hp : (rob.faceSdk h).pose = some p)
    (hfind : findFaceKey rob.faceSdk (rob.faceSdk h).name m = some (k, v))
    (hk : k ≠ h)
    (hvis : (rob.faceSdk h).is_visible = true) :
    update_face rob h ⟨m⟩ = Except.ok
      ⟨dictSet (dictPop m (MapKey.face k)) (MapKey.face h)
        (Entity.applyCoords
          (Entity.setFaceFields (Entity.setIsVisible v (rob.faceSdk h).is_visible)
            p.x p.y p.z (rob.faceSdk h).expression)
          (update_coords rob p (rob.faceSdk h).is_visible))⟩ := by
  have hcond : k ≠ h ∧ (rob.faceSdk h).is_visible = true := ⟨hk, hvis⟩
  unfold update_face lookup_face_obj
  dsimp only
  rw [hp, hfind]
  dsimp only
  rw [if_pos hcond]
  dsimp only
  rw [if_pos hvis, dictSet_dictSet]

/-- The face entity after the visible-branch refresh of update_face: raw
position and expression written, then the coordinate correction applied (a
proof-layer abbreviation). -/
def refreshedFace (rob : RobotState) (h : Nat) (p : Pose3) (f : FaceObj) : FaceObj :=
  { f with x := (update_coords rob p (rob.faceSdk h).is_visible).x
           y := (update_coords rob p (rob.faceSdk h).is_visible).y
           z := (update_coords rob p (rob.faceSdk h).is_visible).z
           theta := (update_coords rob p (rob.faceSdk h).is_visible).theta
           is_visible := (update_coords rob p (rob.faceSdk h).is_visible).is_visible
           expression := some (rob.faceSdk h).expression }

theorem face_chain_eq (rob : RobotState) (h : Nat) (p : Pose3) (f : FaceObj) :
    Entity.applyCoords
      (Entity.setFaceFields (Entity.setIsVisible (Entity.face f) (rob.faceSdk h).is_visible)
        p.x p.y p.z (rob.faceSdk h).expression)
      (update_coords rob p (rob.faceSdk h).is_visible)
    = Entity.face (refreshedFace rob h p f) := rfl

/-- Claim C5: given two sequential face updates under detector handles h1
then h2 reporting the same name, where the h2 observation is visible, after
the second update the tracking map contains exactly one face entry for that
name, it is keyed by h2, the old key h1 is gone, and the entry holds the same
entity created under h1 (witnessed by its preserved face_id and name). -/
theorem c5_face_rekey (rob1 rob2 : RobotState) (h1 h2 : Nat)
    (m0 : List (MapKey × Entity)) (n : String) (p1 p2 : Pose3)
    (hnf : NoFaces m0)
    (hne : h1 ≠ h2)
    (hp1 : (rob1.faceSdk h1).pose = some p1)
    (hv1 : (rob1.faceSdk h1).is_visible = true)
    (hn1 : (rob1.faceSdk h1).name = n)
    (hp2 : (rob2.faceSdk h2).pose = some p2)
    (hv2 : (rob2.faceSdk h2).is_visible = true)
    (hn2 : (rob2.faceSdk h2).name = n)
    (hn1b : (rob2.faceSdk h1).name = n)
    (s1 s2 : WMState)
    (hs1 : update_face rob1 h1 ⟨m0⟩ = Except.ok s1)
    (hs2 : update_face rob2 h2 s1 = Except.ok s2) :
    ∃ F : FaceObj,
      s2.objects.filter isFaceKV = [(MapKey.face h2, Entity.face F)] ∧
      F.name = n ∧
      F.id = (rob1.faceSdk h1).face_id ∧
      dictGet s2.objects (MapKey.face h1) = none := by
  have hkeys1 : ∀ kv ∈ m0, kv.1 ≠ MapKey.face h1 := fun kv hkv => (hnf kv hkv).1 h1
  have hkeys2 : ∀ kv ∈ m0, kv.1 ≠ MapKey.face h2 := fun kv hkv => (hnf kv hkv).1 h2
  have hfind1 : findFaceKey rob1.faceSdk (rob1.faceSdk h1).name m0 = none :=
    findFaceKey_none _ _ _ (fun kv hkv j => (hnf kv hkv).1 j)
  rw [update_face_create_vis rob1 h1 m0 p1 hp1 hfind1 hv1] at hs1
  injection hs1 with hs1'
  subst hs1'
  rw [dictSet_absent _ _ _ hkeys1] at hs2
  have hfind2 : findFaceKey rob2.faceSdk (rob2.faceSdk h2).name
      (m0 ++ [(MapKey.face h1, Entity.face (createdFace rob1 h1 p1))])
      = some (h1, Entity.face (createdFace rob1 h1 p1)) := by
    rw [findFaceKey_append_left _ _ _ _ (fun kv hkv j => (hnf kv hkv).1 j)]
    simp [findFaceKey, hn1b, hn2]
  rw [update_face_rekey_vis rob2 h2 _ p2 h1
    (Entity.face (createdFace rob1 h1 p1)) hp2 hfind2 hne hv2] at hs2
  injection hs2 with hs2'
  have hpop : dictPop (m0 ++ [(MapKey.face h1, Entity.face (createdFace rob1 h1 p1))])
      (MapKey.face h1) = m0 := by
    rw [dictPop_append_left _ _ _ hkeys1]
    simp [dictPop]
  have hobj : s2.objects
      = m0 ++ [(MapKey.face h2,
          Entity.face (refreshedFace rob2 h2 p2 (createdFace rob1 h1 p1)))] := by
    rw [← hs2']
    dsimp only
    rw [face_chain_eq, hpop, dictSet_absent _ _ _ hkeys2]
  refine ⟨refreshedFace rob2 h2 p2 (createdFace rob1 h1 p1), ?_, ?_, ?_, ?_⟩
  · rw [hobj, List.filter_append,
      filter_isFace_nil _ (fun kv hkv f => (hnf kv hkv).2 f)]
    simp [isFaceKV]
  · simp [refreshedFace, createdFace, hn1]
  · simp [refreshedFace, createdFace]
  · rw [hobj, dictGet_append_left _ _ _ hkeys1]
    simp [dictGet, Ne.symm hne]

def c5rob1 : RobotState :=
  { rawPose := ⟨0, 0, 0⟩, pfPose := ⟨0, 0, 0⟩, carrying := none,
    tmat := fun q => q, cubeSdk := fun _ => ⟨none, false⟩,
    faceSdk := fun _ => ⟨some ⟨0, 0, 0, 0, true⟩, true, "Alice", 7, "happy"⟩,
    customSdk := fun _ => ⟨none, false, 0⟩,
    light_cubes := [], faces := [], landmarks := [] }

def c5rob2 : RobotState :=
  { rawPose := ⟨0, 0, 0⟩, pfPose := ⟨0, 0, 0⟩, carrying := none,
    tmat := fun q => q, cubeSdk := fun _ => ⟨none, false⟩,
    faceSdk := fun h =>
      if h = 0 then ⟨none, false, "Alice", 7, ""⟩
      else ⟨some ⟨1, 1, 0, 0, true⟩, true, "Alice", 9, "sad"⟩,
    customSdk := fun _ => ⟨none, false, 0⟩,
    light_cubes := [], faces := [], landmarks := [] }

/-- Witness for claim C5: handle 0 creates the entity for name Alice, handle
1 re-keys it; afterwards the map holds exactly one Alice face entry, keyed by
handle 1, with the face_id created under handle 0. -/
theorem c5_witness : ∃ (s1 s2 : WMState),
    update_face c5rob1 0 ⟨[]⟩ = Except.ok s1 ∧
    update_face c5rob2 1 s1 = Except.ok s2 ∧
    ∃ F : FaceObj,
      s2.objects.filter isFaceKV = [(MapKey.face 1, Entity.face F)] ∧
      F.name = "Alice" ∧
      F.id = (c5rob1.faceSdk 0).face_id ∧
      dictGet s2.objects (MapKey.face 0) = none := by
  refine ⟨_, _, rfl, rfl, ?_⟩
  exact c5_face_rekey c5rob1 c5rob2 0 1 [] "Alice" ⟨0, 0, 0, 0, true⟩ ⟨1, 1, 0, 0, true⟩
    (fun kv hkv => absurd hkv (List.not_mem_nil kv)) (by decide)
    rfl rfl rfl rfl rfl rfl rfl _ _ rfl rfl

/-! Claim C3. -/

def c3spec : WallSpec :=
  { length := 200, height := 150, door_width := 80, door_height := 105,
    markers := [(5, ⟨0⟩)], id := 5 }

def c3dict : Nat → Option WallSpec := fun i => if i = 5 then some c3spec else none

def c3marker : MarkerSpec := { mu := (100, 0), orient := 0 }

/-- Claim C3 counterexample: for a wall spec whose declared door_width is 80,
the inferred wall carries door_width 75 (the WallObj constructor default,
because infer_wall does not pass door_width), not the spec's declared value —
refuting the claim that the inferred wall carries the spec's door_width. -/
theorem c3_counterexample :
    (∃ w : WallObj, infer_wall c3dict 5 [(5, c3marker)] = Except.ok (some w) ∧
      w.door_width = 75) ∧
    c3spec.door_width = 80 ∧ (75 : ℝ) ≠ 80 :=
  ⟨⟨_, rfl, rfl⟩, rfl, by norm_num⟩

/-- Claim C3 (amended): for every wall id with at least one detected marker,
infer_wall uses the first marker that belongs to a known wall and produces a
Wall whose center is the marker's mean position offset by (length/2 minus the
marker's declared offset-from-center) along the direction at angle
(orientation - pi/2), whose orientation equals the marker's observed
orientation, and which carries the spec's declared length, height and
door_height — while its door_width is the WallObj constructor default 75,
because the source omits door_width at the construction site. -/
theorem c3_infer_wall_amended (wdict : Nat → Option WallSpec) (id m_id : Nat)
    (m_spec : MarkerSpec) (rest : List (Nat × MarkerSpec)) (ws : WallSpec)
    (decl : MarkerDecl)
    (hw : wdict m_id = some ws)
    (hd : markerLookup ws.markers m_id = some decl) :
    ∃ w : WallObj,
      infer_wall wdict id ((m_id, m_spec) :: rest) = Except.ok (some w) ∧
      w.x = m_spec.mu.1 +
        (ws.length / 2 - decl.offset) * Real.cos (m_spec.orient - Real.pi / 2) ∧
      w.y = m_spec.mu.2 +
        (ws.length / 2 - decl.offset) * Real.sin (m_spec.orient - Real.pi / 2) ∧
      w.theta = m_spec.orient ∧
      w.id = ws.id ∧
      w.length = ws.length ∧
      w.height = ws.height ∧
      w.door_height = ws.door_height ∧
      w.door_width = 75 := by
  have heval : infer_wall wdict id ((m_id, m_spec) :: rest)
      = Except.ok (some (WallObj.init ws.id
          (m_spec.mu.1 +
            (ws.length / 2 - decl.offset) * Real.cos (m_spec.orient - Real.pi / 2))
          (m_spec.mu.2 +
            (ws.length / 2 - decl.offset) * Real.sin (m_spec.orient - Real.pi / 2))
          m_spec.orient ws.length ws.height 75 ws.door_height)) := by
    simp only [infer_wall]
    rw [hw]
    dsimp only
    rw [hd]
  exact ⟨_, heval, rfl, rfl, rfl, rfl, rfl, rfl, rfl, rfl⟩

/-- Witness for the amended claim C3 at the concrete one-marker spec. -/
theorem c3_witness :
    c3dict 5 = some c3spec ∧
    markerLookup c3spec.markers 5 = some ⟨0⟩ ∧
    ∃ w : WallObj,
      infer_wall c3dict 5 [(5, c3marker)] = Except.ok (some w) ∧
      w.x = c3marker.mu.1 +
        (c3spec.length / 2 - MarkerDecl.offset ⟨0⟩) *
          Real.cos (c3marker.orient - Real.pi / 2) ∧
      w.y = c3marker.mu.2 +
        (c3spec.length / 2 - MarkerDecl.offset ⟨0⟩) *
          Real.sin (c3marker.orient - Real.pi / 2) ∧
      w.theta = c3marker.orient ∧
      w.id = c3spec.id ∧
      w.length = c3spec.length ∧
      w.height = c3spec.height ∧
      w.door_height = c3spec.door_height ∧
      w.door_width = 75 :=
  ⟨rfl, rfl, c3_infer_wall_amended c3dict 5 5 c3marker [] c3spec ⟨0⟩ rfl rfl⟩

/-! Claim C10. -/

/-- Every wall entity in the tracking map sits at its vertical center. -/
def WallZInv (s : WMState) : Prop :=
  ∀ kv ∈ s.objects, ∀ w : WallObj, kv.2 = Entity.wall w → w.z = w.height / 2

/-- Keys are matched with entities of the corresponding kind (wall entries
may also hold Python None, stored unchecked by the wall generator). -/
def kindOK : MapKey → Entity → Prop
  | MapKey.cube _, Entity.cube _ => True
  | MapKey.face _, Entity.face _ => True
  | MapKey.custom _, Entity.custom _ => True
  | MapKey.wall _, Entity.wall _ => True
  | MapKey.wall _, Entity.pyNone => True
  | _, _ => False

/-- Every map entry is well-typed for its key. -/
def WFState (s : WMState) : Prop := ∀ kv ∈ s.objects, kindOK kv.1 kv.2

/-- The combined induction invariant. -/
def GoodState (s : WMState) : Prop := WFState s ∧ WallZInv s

theorem mem_dictSet {m : List (MapKey × Entity)} {k : MapKey} {v : Entity}
    {kv : MapKey × Entity} (h : kv ∈ dictSet m k v) : kv = (k, v) ∨ kv ∈ m := by
  induction m with
  | nil =>
      simp only [dictSet] at h
      exact Or.inl (List.mem_singleton.mp h)
  | cons hd tl ih =>
      obtain ⟨k0, v0⟩ := hd
      simp only [dictSet] at h
      by_cases hk : k0 = k
      · rw [if_pos hk] at h
        rcases List.mem_cons.mp h with rfl | hm
        · exact Or.inl rfl
        · exact Or.inr (List.mem_cons_of_mem _ hm)
      · rw [if_neg hk] at h
        rcases List.mem_cons.mp h with rfl | hm
        · exact Or.inr (List.mem_cons_self _ _)
        · rcases ih hm with h1 | h2
          · exact Or.inl h1
          · exact Or.inr (List.mem_cons_of_mem _ h2)

theorem mem_dictPop {m : List (MapKey × Entity)} {k : MapKey}
    {kv : MapKey × Entity} (h : kv ∈ dictPop m k) : kv ∈ m := by
  induction m with
  | nil => exact h
  | cons hd tl ih =>
      obtain ⟨k0, v0⟩ := hd
      simp only [dictPop] at h
      by_cases hk : k0 = k
      · rw [if_pos hk] at h
        exact List.mem_cons_of_mem _ h
      · rw [if_neg hk] at h
        rcases List.mem_cons.mp h with rfl | hm
        · exact List.mem_cons_self _ _
        · exact List.mem_cons_of_mem _ (ih hm)

theorem dictGet_mem {m : List (MapKey × Entity)} {k : MapKey} {e : Entity}
    (h : dictGet m k = some e) : (k, e) ∈ m := by
  induction m with
  | nil => simp [dictGet] at h
  | cons hd tl ih =>
      obtain ⟨k0, v0⟩ := hd
      simp only [dictGet] at h
      by_cases hk : k0 = k
      · rw [if_pos hk] at h
        injection h with h'
        subst hk
        subst h'
        exact List.mem_cons_self _ _
      · rw [if_neg hk] at h
        exact List.mem_cons_of_mem _ (ih h)

theorem findFaceKey_mem {sdk : Nat → FaceSdk} {nm : String}
    {m : List (MapKey × Entity)} {k : Nat} {v : Entity}
    (h : findFaceKey sdk nm m = some (k, v)) : (MapKey.face k, v) ∈ m := by
  induction m with
  | nil => simp [findFaceKey] at h
  | cons hd tl ih =>
      obtain ⟨k0, v0⟩ := hd
      cases k0 with
      | face j =>
          simp only [findFaceKey] at h
          by_cases hn : (sdk j).name = nm
          · rw [if_pos hn] at h
            injection h with h'
            injection h' with h1 h2
            subst h1
            subst h2
            exact List.mem_cons_self _ _
          · rw [if_neg hn] at h
            exact List.mem_cons_of_mem _ (ih h)
      | cube j =>
          simp only [findFaceKey] at h
          exact List.mem_cons_of_mem _ (ih h)
      | custom j =>
          simp only [findFaceKey] at h
          exact List.mem_cons_of_mem _ (ih h)
      | wall j =>
          simp only [findFaceKey] at h
          exact List.mem_cons_of_mem _ (ih h)

theorem good_dictSet (s : WMState) (k : MapKey) (v : Entity)
    (h : GoodState s) (hk : kindOK k v)
    (hz : ∀ w : WallObj, v = Entity.wall w → w.z = w.height / 2) :
    GoodState ⟨dictSet s.objects k v⟩ := by
  constructor
  · intro kv hkv
    rcases mem_dictSet hkv with rfl | hm
    · exact hk
    · exact h.1 kv hm
  · intro kv hkv w hw
    rcases mem_dictSet hkv with rfl | hm
    · exact hz w hw
    · exact h.2 kv hm w hw

theorem good_dictPop (s : WMState) (k : MapKey) (h : GoodState s) :
    GoodState ⟨dictPop s.objects k⟩ :=
  ⟨fun kv hkv => h.1 kv (mem_dictPop hkv),
   fun kv hkv w hw => h.2 kv (mem_dictPop hkv) w hw⟩

/-- Every wall that infer_wall produces sits at its vertical center. -/
theorem infer_wall_z (wdict : Nat → Option WallSpec) (id : Nat)
    (markers : List (Nat × MarkerSpec)) (w : WallObj)
    (h : infer_wall wdict id markers = Except.ok (some w)) : w.z = w.height / 2 := by
  induction markers with
  | nil => simp [infer_wall] at h
  | cons hd tl ih =>
      obtain ⟨m_id, m_spec⟩ := hd
      simp only [infer_wall] at h
      cases hw : wdict m_id with
      | none =>
          rw [hw] at h
          exact ih h
      | some ws =>
          rw [hw] at h
          dsimp only at h
          cases hd2 : markerLookup ws.markers m_id with
          | none =>
              rw [hd2] at h
              exact Except.noConfusion h
          | some decl =>
              rw [hd2] at h
              dsimp only at h
              injection h with h1
              injection h1 with h2
              subst h2
              rfl

theorem good_update_cube_rest (rob : RobotState) (c : Nat) (e : Entity)
    (s s' : WMState) (hkind : kindOK (MapKey.cube c) e)
    (h : GoodState s) (hok : update_cube_rest rob c e s = Except.ok s') :
    GoodState s' := by
  cases e with
  | cube o =>
      unfold update_cube_rest at hok
      dsimp only at hok
      by_cases hv : (rob.cubeSdk c).is_visible = true
      · rw [if_pos hv] at hok
        split at hok
        · split at hok
          · exact Except.noConfusion hok
          · injection hok with h'
            subst h'
            exact good_dictSet s _ _ h True.intro (fun w hw => nomatch hw)
        · injection hok with h'
          subst h'
          exact good_dictSet s _ _ h True.intro (fun w hw => nomatch hw)
      · rw [if_neg hv] at hok
        split at hok
        · split at hok
          · exact Except.noConfusion hok
          · injection hok with h'
            subst h'
            exact good_dictSet s _ _ h True.intro (fun w hw => nomatch hw)
        · injection hok with h'
          subst h'
          exact good_dictSet s _ _ h True.intro (fun w hw => nomatch hw)
  | wall w => exact hkind.elim
  | custom o => exact hkind.elim
  | face f => exact hkind.elim
  | pyNone => exact hkind.elim

theorem good_update_cube (rob : RobotState) (c : Nat) (s s' : WMState)
    (h : GoodState s) (hok : update_cube rob c s = Except.ok s') : GoodState s' := by
  unfold update_cube at hok
  cases hg : dictGet s.objects (MapKey.cube c) with
  | some e =>
      rw [hg] at hok
      dsimp only at hok
      have hkind : kindOK (MapKey.cube c) e := h.1 (MapKey.cube c, e) (dictGet_mem hg)
      split at hok
      · injection hok with h'
        subst h'
        cases e with
        | cube o => exact good_dictSet s _ _ h True.intro (fun w hw => nomatch hw)
        | wall w => exact hkind.elim
        | custom o => exact hkind.elim
        | face f => exact hkind.elim
        | pyNone => exact hkind.elim
      · exact good_update_cube_rest rob c e s s' hkind h hok
  | none =>
      rw [hg] at hok
      dsimp only at hok
      cases hp : (rob.cubeSdk c).pose with
      | none =>
          rw [hp] at hok
          injection hok with h'
          subst h'
          exact h
      | some p =>
          rw [hp] at hok
          dsimp only at hok
          split at hok
          · injection hok with h'
            subst h'
            exact h
          · split at hok
            · exact Except.noConfusion hok
            · refine good_update_cube_rest rob c _ _ s' ?_ ?_ hok
              · exact True.intro
              · exact good_dictSet s _ _ h True.intro (fun w hw => nomatch hw)

theorem good_update_custom (rob : RobotState) (h0 : Nat) (s s' : WMState)
    (h : GoodState s) (hok : update_custom_object rob h0 s = Except.ok s') :
    GoodState s' := by
  unfold update_custom_object at hok
  dsimp only at hok
  cases hp : (rob.customSdk h0).pose with
  | none =>
      rw [hp] at hok
      exact Except.noConfusion hok
  | some p =>
      rw [hp] at hok
      dsimp only at hok
      split at hok
      · injection hok with h'
        subst h'
        exact h
      · cases hg : dictGet s.objects (MapKey.custom h0) with
        | some e =>
            rw [hg] at hok
            dsimp only at hok
            injection hok with h'
            subst h'
            have hkind : kindOK (MapKey.custom h0) e := h.1 _ (dictGet_mem hg)
            cases e with
            | custom o => exact good_dictSet s _ _ h True.intro (fun w hw => nomatch hw)
            | wall w => exact hkind.elim
            | cube o => exact hkind.elim
            | face f0 => exact hkind.elim
            | pyNone => exact hkind.elim
        | none =>
            rw [hg] at hok
            dsimp only at hok
            injection hok with h'
            subst h'
            exact good_dictSet s _ _ h True.intro (fun w hw => nomatch hw)

theorem lookup_face_obj_cases (rob : RobotState) (f : Nat)
    (m : List (MapKey × Entity)) :
    lookup_face_obj rob f m = (none, m) ∨
    (∃ k v, lookup_face_obj rob f m = (some (MapKey.face k, v), m) ∧
      (MapKey.face k, v) ∈ m) ∨
    (∃ k v, lookup_face_obj rob f m
        = (some (MapKey.face f, v), dictSet (dictPop m (MapKey.face k)) (MapKey.face f) v)
      ∧ (MapKey.face k, v) ∈ m) := by
  unfold lookup_face_obj
  cases hf : findFaceKey rob.faceSdk (rob.faceSdk f).name m with
  | none => exact Or.inl rfl
  | some kv0 =>
      obtain ⟨k, v⟩ := kv0
      dsimp only
      by_cases hc : k ≠ f ∧ (rob.faceSdk f).is_visible = true
      · rw [if_pos hc]
        exact Or.inr (Or.inr ⟨k, v, rfl, findFaceKey_mem hf⟩)
      · rw [if_neg hc]
        exact Or.inr (Or.inl ⟨k, v, rfl, findFaceKey_mem hf⟩)

theorem good_update_face (rob : RobotState) (f : Nat) (s s' : WMState)
    (h : GoodState s) (hok : update_face rob f s = Except.ok s') : GoodState s' := by
  unfold update_face at hok
  dsimp only at hok
  cases hp : (rob.faceSdk f).pose with
  | none =>
      rw [hp] at hok
      injection hok with h'
      subst h'
      exact h
  | some pos =>
      rw [hp] at hok
      dsimp only at hok
      rcases lookup_face_obj_cases rob f s.objects with hl | ⟨k, v, hl, hm⟩ | ⟨k, v, hl, hm⟩
      · rw [hl] at hok
        dsimp only at hok
        split at hok
        · injection hok with h'
          subst h'
          exact good_dictSet ⟨dictSet s.objects (MapKey.face f) _⟩ _ _
            (good_dictSet s _ _ h True.intro (fun w hw => nomatch hw))
            True.intro (fun w hw => nomatch hw)
        · injection hok with h'
          subst h'
          exact good_dictSet ⟨dictSet s.objects (MapKey.face f) _⟩ _ _
            (good_dictSet s _ _ h True.intro (fun w hw => nomatch hw))
            True.intro (fun w hw => nomatch hw)
      · rw [hl] at hok
        dsimp only at hok
        have hkind : kindOK (MapKey.face k) v := h.1 _ hm
        cases v with
        | face fo =>
            split at hok
            · injection hok with h'
              subst h'
              exact good_dictSet s _ _ h True.intro (fun w hw => nomatch hw)
            · injection hok with h'
              subst h'
              exact good_dictSet s _ _ h True.intro (fun w hw => nomatch hw)
        | wall w => exact hkind.elim
        | cube o => exact hkind.elim
        | custom o => exact hkind.elim
        | pyNone => exact hkind.elim
      · rw [hl] at hok
        dsimp only at hok
        have hkind : kindOK (MapKey.face k) v := h.1 _ hm
        cases v with
        | face fo =>
            have hgood2 : GoodState
                ⟨dictSet (dictPop s.objects (MapKey.face k)) (MapKey.face f)
                  (Entity.face fo)⟩ :=
              good_dictSet ⟨dictPop s.objects (MapKey.face k)⟩ _ _
                (good_dictPop s _ h) True.intro (fun w hw => nomatch hw)
            split at hok
            · injection hok with h'
              subst h'
              exact good_dictSet _ _ _ hgood2 True.intro (fun w hw => nomatch hw)
            · injection hok with h'
              subst h'
              exact good_dictSet _ _ _ hgood2 True.intro (fun w hw => nomatch hw)
        | wall w => exact hkind.elim
        | cube o => exact hkind.elim
        | custom o => exact hkind.elim
        | pyNone => exact hkind.elim

theorem good_storeWalls (wdict : Nat → Option WallSpec)
    (groups : List (Nat × List (Nat × MarkerSpec))) :
    ∀ s s' : WMState, GoodState s → storeWalls wdict groups s = Except.ok s' →
      GoodState s' := by
  induction groups with
  | nil =>
      intro s s' h hok
      injection hok with h'
      subst h'
      exact h
  | cons g rest ih =>
      intro s s' h hok
      obtain ⟨wid, ms⟩ := g
      simp only [storeWalls] at hok
      cases hiw : infer_wall wdict wid ms with
      | error e =>
          rw [hiw] at hok
          exact Except.noConfusion hok
      | ok r =>
          rw [hiw] at hok
          dsimp only at hok
          refine ih _ _ ?_ hok
          cases r with
          | none => exact good_dictSet s _ _ h True.intro (fun w hw => nomatch hw)
          | some w0 =>
              refine good_dictSet s _ _ h True.intro ?_
              intro w hw
              injection hw with hww
              subst hww
              exact infer_wall_z wdict wid ms w0 hiw

theorem good_cubeLoop (rob : RobotState) (l : List (Nat × Nat)) :
    ∀ s s' : WMState, GoodState s → cubeLoop rob l s = Except.ok s' → GoodState s' := by
  induction l with
  | nil =>
      intro s s' h hok
      injection hok with h'
      subst h'
      exact h
  | cons g rest ih =>
      intro s s' h hok
      obtain ⟨i, c⟩ := g
      simp only [cubeLoop] at hok
      cases hc : update_cube rob c s with
      | error e =>
          rw [hc] at hok
          exact Except.noConfusion hok
      | ok s1 =>
          rw [hc] at hok
          exact ih _ _ (good_update_cube rob c s s1 h hc) hok

theorem good_faceLoop (rob : RobotState) (l : List Nat) :
    ∀ s s' : WMState, GoodState s → faceLoop rob l s = Except.ok s' → GoodState s' := by
  induction l with
  | nil =>
      intro s s' h hok
      injection hok with h'
      subst h'
      exact h
  | cons f rest ih =>
      intro s s' h hok
      simp only [faceLoop] at hok
      cases hc : update_face rob f s with
      | error e =>
          rw [hc] at hok
          exact Except.noConfusion hok
      | ok s1 =>
          rw [hc] at hok
          exact ih _ _ (good_update_face rob f s s1 h hc) hok

theorem good_update_map (rob : RobotState) (wdict : Nat → Option WallSpec)
    (s s' : WMState) (h : GoodState s) (hok : update_map rob wdict s = Except.ok s') :
    GoodState s' := by
  unfold update_map at hok
  cases h1 : generate_walls_from_markers rob wdict s with
  | error e =>
      rw [h1] at hok
      exact Except.noConfusion hok
  | ok s1 =>
      rw [h1] at hok
      dsimp only at hok
      have hg1 : GoodState s1 := good_storeWalls wdict _ s s1 h h1
      cases h2 : cubeLoop rob rob.light_cubes s1 with
      | error e =>
          rw [h2] at hok
          exact Except.noConfusion hok
      | ok s2 =>
          rw [h2] at hok
          exact good_faceLoop rob rob.faces s2 s'
            (good_cubeLoop rob rob.light_cubes s1 s2 hg1 h2) hok

/-- The operations of the module, as invoked by the event dispatcher and the
planner loop. -/
inductive Op where
  | cubeOp (c : Nat)
  | faceOp (f : Nat)
  | customOp (h : Nat)
  | wallsOp
  | mapOp

/-- Run one module operation in a given robot environment. -/
def applyOp (rob : RobotState) (wdict : Nat → Option WallSpec) :
    Op → WMState → Except PyErr WMState
  | Op.cubeOp c => update_cube rob c
  | Op.faceOp f => update_face rob f
  | Op.customOp h => update_custom_object rob h
  | Op.wallsOp => generate_walls_from_markers rob wdict
  | Op.mapOp => update_map rob wdict

/-- States reachable from the initial empty tracking map by any sequence of
module operations, under arbitrary robot environments. -/
inductive Reachable : WMState → Prop where
  | empty : Reachable ⟨[]⟩
  | step {s s' : WMState} (rob : RobotState) (wdict : Nat → Option WallSpec)
      (op : Op) : Reachable s → applyOp rob wdict op s = Except.ok s' → Reachable s'

theorem good_applyOp (rob : RobotState) (wdict : Nat → Option WallSpec)
    (op : Op) (s s' : WMState) (h : GoodState s)
    (hok : applyOp rob wdict op s = Except.ok s') : GoodState s' := by
  cases op with
  | cubeOp c => exact good_update_cube rob c s s' h hok
  | faceOp f => exact good_update_face rob f s s' h hok
  | customOp h0 => exact good_update_custom rob h0 s s' h hok
  | wallsOp => exact good_storeWalls wdict _ s s' h hok
  | mapOp => exact good_update_map rob wdict s s' h hok

theorem good_reachable (s : WMState) (h : Reachable s) : GoodState s := by
  induction h with
  | empty =>
      constructor
      · intro kv hkv
        exact absurd hkv (List.not_mem_nil kv)
      · intro kv hkv
        exact absurd hkv (List.not_mem_nil kv)
  | step rob wdict op hre hok ih => exact good_applyOp rob wdict op _ _ ih hok

/-- Claim C10: every Wall entity ever constructed has z equal to half its
height (the constructor always sets z = height/2), and no operation of the
module ever changes a wall's z afterward — in every state reachable from the
empty tracking map by any sequence of module operations, every wall entity
satisfies z = height/2. -/
theorem c10_wall_z_invariant (s : WMState) (hs : Reachable s) :
    (∀ (id : Nat) (x y theta L H DW DH : ℝ),
      (WallObj.init id x y theta L H DW DH).z = H / 2) ∧
    ∀ kv ∈ s.objects, ∀ w : WallObj, kv.2 = Entity.wall w → w.z = w.height / 2 :=
  ⟨fun _ _ _ _ _ _ _ _ => rfl, (good_reachable s hs).2⟩

def c10spec : WallSpec :=
  { length := 200, height := 150, door_width := 75, door_height := 105,
    markers := [(6, ⟨10⟩)], id := 6 }

def c10dict : Nat → Option WallSpec := fun i => if i = 6 then some c10spec else none

def c10rob : RobotState :=
  { rawPose := ⟨0, 0, 0⟩, pfPose := ⟨0, 0, 0⟩, carrying := none,
    tmat := fun q => q, cubeSdk := fun _ => ⟨none, false⟩,
    faceSdk := fun _ => ⟨none, false, "", 0, ""⟩,
    customSdk := fun _ => ⟨none, false, 0⟩,
    light_cubes := [], faces := [],
    landmarks := [(6, ⟨(100, 0), 0⟩)] }

/-- Witness for claim C10 at the state reached by one wall-generation step
that stores a concrete wall. -/
theorem c10_witness :
    ∃ s1 : WMState,
      applyOp c10rob c10dict Op.wallsOp ⟨[]⟩ = Except.ok s1 ∧
      ((∀ (id : Nat) (x y theta L H DW DH : ℝ),
        (WallObj.init id x y theta L H DW DH).z = H / 2) ∧
      ∀ kv ∈ s1.objects, ∀ w : WallObj, kv.2 = Entity.wall w → w.z = w.height / 2) :=
  ⟨_, rfl, c10_wall_z_invariant _
    (Reachable.step c10rob c10dict Op.wallsOp Reachable.empty rfl)⟩

end Cozmo
